import Mathlib

/-!
Shallow embedding of the chlorate crate (src/lib.rs), a safe wrapper around
the native SODA speech engine, together with theorems settling the frozen
claims about it.

Modelling conventions:
- Machine integers are `Nat` (u32) and `Int` (i32); the Rust cast `as i32`
  is `u32_as_i32` below, with the wrap-around made explicit.
- Effects at the foreign boundary (engine calls, sleeps, freeing the boxed
  closure) are recorded as an `EngineCall` trace returned by each operation.
- The engine itself is opaque: its create call is modelled by an oracle
  `SerializedSodaConfigMsg → Nat` supplied to `build`; handle 0 plays the
  role of the null pointer.
- A `Read` source is modelled by the sequence of results its successive
  `read` calls would return: either `ok bytes` (the bytes written into the
  2048-byte buffer, so `bytes.length ≤ 2048` in any run of the real code)
  or `err` for an `Err(_)` outcome.
- The prost-generated protobuf code (`include!(... speech.soda.api.rs)`,
  produced by the build script and not under src/) is represented by: the
  message structures with optional fields defaulting to `none`, the
  `RecognitionMode` enum, and a decode function left as a parameter where a
  claim quantifies over it.
-/

namespace Chlorate

/-- Modelled from the spec: the recognition-mode enumeration of the
protobuf schema (generated code absent from src/); the spec names the
interactive-input mode (Ime) and a caption mode. Discriminant values for
the Rust cast `as i32` follow the usual proto numbering with an unknown
zero value. -/
inductive RecognitionMode where
  | unknown
  | ime
  | caption
  deriving DecidableEq, Repr

/-- Modelled from the spec: the i32 discriminant of a recognition-mode
variant, used by `self.recognition_mode as i32` in `build`. -/
def RecognitionMode.code : RecognitionMode → Int
  | .unknown => 0
  | .ime => 1
  | .caption => 2

/-- The builder struct `SodaBuilder` of src/lib.rs, fields in source order.
The u32 fields are `Nat`; any value a caller can store is below 2 ^ 32. -/
structure SodaBuilder where
  channel_count : Nat
  sample_rate : Nat
  max_buffer_bytes : Nat
  simulate_realtime_test_only : Bool
  language_pack_directory : String
  api_key : String
  recognition_mode : RecognitionMode
  reset_on_final_result : Bool
  include_timing_metrics : Bool
  enable_lang_id : Bool
  deriving DecidableEq, Repr

/-- `impl Default for SodaBuilder` of src/lib.rs. -/
def SodaBuilder.default : SodaBuilder where
  channel_count := 1
  sample_rate := 16000
  language_pack_directory := "./SODAModels"
  max_buffer_bytes := 0
  simulate_realtime_test_only := false
  api_key := "dummy_key"
  recognition_mode := .ime
  reset_on_final_result := true
  include_timing_metrics := true
  enable_lang_id := false

/-- `SodaBuilder::new`, which just delegates to the `Default` impl. -/
def SodaBuilder.new : SodaBuilder := SodaBuilder.default

/-- Setter `SodaBuilder::channel_count` (named with a `set_` head because in
Lean the field projection already carries the source name). -/
def SodaBuilder.set_channel_count (b : SodaBuilder) (channel_count : Nat) :
    SodaBuilder :=
  { b with channel_count := channel_count }

/-- Setter `SodaBuilder::sample_rate`. -/
def SodaBuilder.set_sample_rate (b : SodaBuilder) (sample_rate : Nat) :
    SodaBuilder :=
  { b with sample_rate := sample_rate }

/-- Setter `SodaBuilder::max_buffer_bytes`. -/
def SodaBuilder.set_max_buffer_bytes (b : SodaBuilder) (max_buffer_bytes : Nat) :
    SodaBuilder :=
  { b with max_buffer_bytes := max_buffer_bytes }

/-- Setter `SodaBuilder::simulate_realtime_testonly`. -/
def SodaBuilder.set_simulate_realtime_testonly (b : SodaBuilder)
    (simulate_realtime_testonly : Bool) : SodaBuilder :=
  { b with simulate_realtime_test_only := simulate_realtime_testonly }

/-- Setter `SodaBuilder::language_pack_directory`. -/
def SodaBuilder.set_language_pack_directory (b : SodaBuilder)
    (language_pack_directory : String) : SodaBuilder :=
  { b with language_pack_directory := language_pack_directory }

/-- Setter `SodaBuilder::api_key`. -/
def SodaBuilder.set_api_key (b : SodaBuilder) (api_key : String) : SodaBuilder :=
  { b with api_key := api_key }

/-- Setter `SodaBuilder::recognition_mode`. -/
def SodaBuilder.set_recognition_mode (b : SodaBuilder)
    (recognition_mode : RecognitionMode) : SodaBuilder :=
  { b with recognition_mode := recognition_mode }

/-- Setter `SodaBuilder::reset_on_final_result`. -/
def SodaBuilder.set_reset_on_final_result (b : SodaBuilder)
    (reset_on_final_result : Bool) : SodaBuilder :=
  { b with reset_on_final_result := reset_on_final_result }

/-- Setter `SodaBuilder::include_timing_metrics`. -/
def SodaBuilder.set_include_timing_metrics (b : SodaBuilder)
    (include_timing_metrics : Bool) : SodaBuilder :=
  { b with include_timing_metrics := include_timing_metrics }

/-- Setter `SodaBuilder::enable_lang_id`. -/
def SodaBuilder.set_enable_lang_id (b : SodaBuilder) (enable_lang_id : Bool) :
    SodaBuilder :=
  { b with enable_lang_id := enable_lang_id }

/-- The Rust cast `u32 as i32`: two's-complement reinterpretation. For
`v < 2 ^ 31` the value is unchanged; for `2 ^ 31 ≤ v < 2 ^ 32` it becomes
`v - 2 ^ 32`, a negative number. -/
def u32_as_i32 (v : Nat) : Int :=
  if v % 2 ^ 32 < 2 ^ 31 then ((v % 2 ^ 32 : Nat) : Int)
  else ((v % 2 ^ 32 : Nat) : Int) - 2 ^ 32

/-- The wire configuration message `SerializedSodaConfigMsg` (prost-generated;
only the fields `build` populates are listed, all optional-presence with
`none` as the prost default used by `..Default::default()`). -/
structure SerializedSodaConfigMsg where
  channel_count : Option Int := none
  sample_rate : Option Int := none
  max_buffer_bytes : Option Int := none
  simulate_realtime_testonly : Option Bool := none
  api_key : Option String := none
  language_pack_directory : Option String := none
  recognition_mode : Option Int := none
  reset_on_final_result : Option Bool := none
  include_timing_metrics : Option Bool := none
  enable_lang_id : Option Bool := none
  deriving DecidableEq, Repr

/-- The configuration value `build` constructs from the builder state
(src/lib.rs lines 188-200), including the `as i32` casts on the three u32
fields and on the recognition-mode enum. -/
def SodaBuilder.configMsg (b : SodaBuilder) : SerializedSodaConfigMsg where
  channel_count := some (u32_as_i32 b.channel_count)
  sample_rate := some (u32_as_i32 b.sample_rate)
  max_buffer_bytes := some (u32_as_i32 b.max_buffer_bytes)
  simulate_realtime_testonly := some b.simulate_realtime_test_only
  api_key := some b.api_key
  language_pack_directory := some b.language_pack_directory
  recognition_mode := some b.recognition_mode.code
  reset_on_final_result := some b.reset_on_final_result
  include_timing_metrics := some b.include_timing_metrics
  enable_lang_id := some b.enable_lang_id

/-- One observable action at the foreign boundary or on the boxed closure.
`freeClosure` would be the reconstruction and drop of the `Box` whose raw
pointer was handed to the engine as user data; the source never performs
it, but the event is needed to state claims about freeing. -/
inductive EngineCall where
  | create (config : SerializedSodaConfigMsg) (callback_handle : Nat)
  | start (handle : Nat)
  | addAudio (handle : Nat) (chunk : List Nat)
  | sleep20ms
  | delete (handle : Nat)
  | freeClosure (callback_handle : Nat)
  deriving DecidableEq, Repr

/-- The client struct `SodaClient` of src/lib.rs: it stores only the opaque
engine handle (plus a `PhantomData` lifetime marker with no runtime
content); in particular it does not retain the raw closure pointer. -/
structure SodaClient where
  soda_handle : Nat
  deriving DecidableEq, Repr

/-- Error type for a failed build. `SodaBuilder::build` in src/lib.rs has no
failure path (it returns `SodaClient` unconditionally), so this type is
uninhabited: the `Except` in the result of `build` below can never be
`error`. -/
inductive BuildError where
  deriving DecidableEq, Repr

/-- `SodaBuilder::build` (src/lib.rs lines 182-225). `callback_handle` is the
address produced by `Box::into_raw` on the double-boxed closure;
`engineCreate` is the oracle for `CreateExtendedSodaAsync`. The code builds
the config message, encodes it (encoding into a growable `Vec` cannot fail),
calls create, then unconditionally calls `ExtendedSodaStart` on the returned
handle — without any null or validity check — and returns the client. The
result carries the builder back unchanged (the Rust method takes `&mut self`
and writes no field), the build outcome, and the engine-call trace. -/
def SodaBuilder.build (b : SodaBuilder) (callback_handle : Nat)
    (engineCreate : SerializedSodaConfigMsg → Nat) :
    SodaBuilder × Except BuildError SodaClient × List EngineCall :=
  let config := b.configMsg
  let handle := engineCreate config
  (b, Except.ok ⟨handle⟩,
    [EngineCall.create config callback_handle, EngineCall.start handle])

/-- `impl Drop for SodaClient` (src/lib.rs lines 282-286): the only action is
one `DeleteExtendedSodaAsync` call on the stored handle; the boxed closure
is not freed (the client never kept its pointer). -/
def SodaClient.drop (c : SodaClient) : List EngineCall :=
  [EngineCall.delete c.soda_handle]

/-- One result of a `read` call on the audio source: `ok bytes` for
`Ok(len)` with `bytes` the bytes placed in the buffer (`len = bytes.length`),
`err` for `Err(_)`. -/
inductive ReadResult where
  | ok (bytes : List Nat)
  | err
  deriving DecidableEq, Repr

/-- `SodaClient::add_chunked_audio` (src/lib.rs lines 252-279): loop
`while let Ok(len) = data.read(&mut chunk)`; an `Err` result exits the loop,
a zero-length read breaks, a non-empty read is pushed via `ExtendedAddAudio`
and, when `simulate_real_time` is set, followed by a 20 ms sleep. An
exhausted result list models a source that would only keep returning
`Ok(0)`. -/
def SodaClient.add_chunked_audio (c : SodaClient) (data : List ReadResult)
    (simulate_real_time : Bool) : List EngineCall :=
  match data with
  | [] => []
  | ReadResult.err :: _ => []
  | ReadResult.ok chunk :: rest =>
    if chunk = [] then []
    else
      EngineCall.addAudio c.soda_handle chunk ::
        ((if simulate_real_time then [EngineCall.sleep20ms] else []) ++
          c.add_chunked_audio rest simulate_real_time)

/-- `SodaClient::add_audio`: immediate-mode feed. -/
def SodaClient.add_audio (c : SodaClient) (data : List ReadResult) :
    List EngineCall :=
  c.add_chunked_audio data false

/-- `SodaClient::add_simulated_audio`: paced-mode feed. -/
def SodaClient.add_simulated_audio (c : SodaClient) (data : List ReadResult) :
    List EngineCall :=
  c.add_chunked_audio data true

/-- The chunks pushed to the engine in a trace, in order. -/
def pushedChunks : List EngineCall → List (List Nat)
  | [] => []
  | EngineCall.addAudio _ chunk :: rest => chunk :: pushedChunks rest
  | _ :: rest => pushedChunks rest

/-- `CStr::from_ptr(message).to_bytes()` as used by the trampoline: the bytes
of the payload strictly before the first zero byte. -/
def cstr_to_bytes (payload : List Nat) : List Nat :=
  payload.takeWhile (fun b => b ≠ 0)

/-- The callback trampoline `soda_callback` (src/lib.rs lines 288-296),
parametrised by the prost-generated `SodaResponse::decode` (external code).
It reads the payload as a C string — ignoring the `length` argument, which
the source binds as `_length` — and invokes the user closure exactly when
decoding succeeds. The result is the list of closure invocations with their
decoded arguments. -/
def soda_callback {α : Type} (decode : List Nat → Option α)
    (message : List Nat) (_length : Int) : List α :=
  match decode (cstr_to_bytes message) with
  | some sr => [sr]
  | none => []

/-- Whether a trace event is the engine destroy call. -/
def isDelete : EngineCall → Bool
  | EngineCall.delete _ => true
  | _ => false

/-- Whether a trace event frees the boxed closure. -/
def isFreeClosure : EngineCall → Bool
  | EngineCall.freeClosure _ => true
  | _ => false

/-- `pushedChunks` distributes over trace concatenation. -/
theorem pushedChunks_append (s t : List EngineCall) :
    pushedChunks (s ++ t) = pushedChunks s ++ pushedChunks t := by
  induction s with
  | nil => rfl
  | cons e s ih => cases e <;> simp [pushedChunks, ih]

/-- Feeding a block of non-empty successful reads pushes exactly those
chunks and continues with the rest of the source. -/
theorem pushedChunks_ok_block (c : SodaClient) (sim : Bool)
    (chunks : List (List Nat)) (rest : List ReadResult)
    (h : ∀ x ∈ chunks, x ≠ []) :
    pushedChunks (c.add_chunked_audio (chunks.map ReadResult.ok ++ rest) sim) =
      chunks ++ pushedChunks (c.add_chunked_audio rest sim) := by
  induction chunks with
  | nil => rfl
  | cons x xs ih =>
    have hx : ¬ x = [] := h x (by simp)
    have hxs : ∀ y ∈ xs, y ≠ [] := fun y hy => h y (by simp [hy])
    cases sim <;>
      simp [SodaClient.add_chunked_audio, hx, pushedChunks, pushedChunks_append,
        ih hxs]

/-- C7: a builder created with no setters called has exactly the documented
default values: channel_count 1, sample_rate 16000, a relative default
language-pack directory, a placeholder api_key, recognition mode Ime,
reset_on_final_result true, include_timing_metrics true, enable_lang_id
false, max_buffer_bytes 0, simulate-realtime false. -/
theorem C7_builder_defaults :
    SodaBuilder.new.channel_count = 1 ∧
    SodaBuilder.new.sample_rate = 16000 ∧
    SodaBuilder.new.language_pack_directory = "./SODAModels" ∧
    SodaBuilder.new.api_key = "dummy_key" ∧
    SodaBuilder.new.recognition_mode = RecognitionMode.ime ∧
    SodaBuilder.new.reset_on_final_result = true ∧
    SodaBuilder.new.include_timing_metrics = true ∧
    SodaBuilder.new.enable_lang_id = false ∧
    SodaBuilder.new.max_buffer_bytes = 0 ∧
    SodaBuilder.new.simulate_realtime_test_only = false :=
  ⟨rfl, rfl, rfl, rfl, rfl, rfl, rfl, rfl, rfl, rfl⟩

/-- C1 fails on the code: at the concrete client with handle 5, the Drop
implementation performs the destroy call but zero freeClosure actions, so it
is false that teardown "invokes the engine destroy call exactly once and
then frees the boxed closure": the closure handed to the engine is never
freed (the client does not even retain its pointer). -/
theorem C1_counterexample :
    ¬ ((SodaClient.drop ⟨5⟩).countP isDelete = 1 ∧
       (SodaClient.drop ⟨5⟩).countP isFreeClosure = 1) := by
  decide

/-- C1 amended: at teardown the Drop implementation invokes the engine
destroy call exactly once, and it never frees the boxed closure that was
handed to the engine as the opaque user-data pointer; the closure is leaked
and thus outlives the handle. -/
theorem C1_amended_drop (c : SodaClient) :
    c.drop = [EngineCall.delete c.soda_handle] ∧
    c.drop.countP isDelete = 1 ∧
    c.drop.countP isFreeClosure = 0 :=
  ⟨rfl, rfl, rfl⟩

/-- C2 fails on the code: with the engine create oracle returning the null
handle 0 on the default configuration, build still returns a client — whose
stored handle is 0 — and even issues the start call on that null handle; no
failure result is surfaced. -/
theorem C2_counterexample :
    (SodaBuilder.default.build 7 (fun _ => 0)).2.1 = Except.ok ⟨0⟩ ∧
    (SodaBuilder.default.build 7 (fun _ => 0)).2.2 =
      [EngineCall.create SodaBuilder.default.configMsg 7, EngineCall.start 0] :=
  ⟨rfl, rfl⟩

/-- C2 amended: build never inspects the handle returned by the engine
create call and has no failure path at all; for every builder and every
create outcome (the null handle included) it returns a client holding that
handle, after issuing exactly the create and start calls. Encoding the
configuration into a growable buffer cannot fail, so no serialization
failure is ever surfaced either. -/
theorem C2_amended_build_unconditional (b : SodaBuilder) (cb : Nat)
    (engineCreate : SerializedSodaConfigMsg → Nat) :
    (b.build cb engineCreate).2.1 = Except.ok ⟨engineCreate b.configMsg⟩ ∧
    (b.build cb engineCreate).2.2 =
      [EngineCall.create b.configMsg cb,
        EngineCall.start (engineCreate b.configMsg)] :=
  ⟨rfl, rfl⟩

/-- C3 (code bug): the trampoline reads the payload with CStr, so the
two-byte payload [8, 0] with stated length 2 — a well-formed serialized
record with an interior zero byte — is truncated to [8] before decoding:
the supplied length is ignored, and a decoder that accepts exactly the full
payload is never given it, so the event is dropped. -/
theorem C3_failing_input :
    cstr_to_bytes [8, 0] = [8] ∧
    List.take 2 [8, 0] = [8, 0] ∧ [8] ≠ ([8, 0] : List Nat) ∧
    soda_callback (fun bs => if bs = [8, 0] then some (0 : Nat) else none)
      [8, 0] 2 = [] := by
  decide

/-- C4: for every decoder, payload and stated length, the user closure is
invoked exactly once — with the decoded record — when the bytes the
trampoline extracts decode successfully, and not at all when decoding
fails; the failure is absorbed (the trampoline returns normally with no
invocation) rather than propagating. -/
theorem C4_closure_invocations {α : Type} (decode : List Nat → Option α)
    (message : List Nat) (len : Int) :
    (∀ sr, decode (cstr_to_bytes message) = some sr →
      soda_callback decode message len = [sr]) ∧
    (decode (cstr_to_bytes message) = none →
      soda_callback decode message len = []) := by
  constructor
  · intro sr h
    simp [soda_callback, h]
  · intro h
    simp [soda_callback, h]

/-- Witness for C4 at a concrete payload, a decoder that succeeds and one
that fails. -/
theorem C4_witness :
    soda_callback (fun _ => some (42 : Nat)) [1] 1 = [42] ∧
    soda_callback (fun _ => (none : Option Nat)) [1] 1 = [] :=
  ⟨(C4_closure_invocations (fun _ => some 42) [1] 1).1 42 rfl,
   (C4_closure_invocations (fun _ => (none : Option Nat)) [1] 1).2 rfl⟩

/-- The total length of a list of chunks that all have length n. -/
theorem sum_lengths_of_const (n : Nat) (chunks : List (List Nat))
    (h : ∀ x ∈ chunks, x.length = n) :
    (chunks.map List.length).sum = n * chunks.length := by
  induction chunks with
  | nil => simp
  | cons x xs ih =>
    have hx := h x (List.mem_cons_self x xs)
    have ihx := ih (fun y hy => h y (List.mem_cons_of_mem x hy))
    simp [hx, ihx, Nat.mul_succ]
    omega

/-- C5: feeding an empty source pushes nothing and produces no engine calls
at all; a source of reads that all fill the 2048-byte buffer, followed by
end of stream, pushes exactly those chunks — length/2048 of them, each of
exactly 2048 bytes; in general a non-empty read is pushed once and
processing continues, and a zero-length read terminates the loop. -/
theorem C5_chunked_feed (c : SodaClient) (sim : Bool) :
    (c.add_chunked_audio [] sim = [] ∧
      ∀ rest, c.add_chunked_audio (ReadResult.ok [] :: rest) sim = []) ∧
    (∀ chunks rest, (∀ x ∈ chunks, x.length = 2048) →
      pushedChunks (c.add_chunked_audio
          (chunks.map ReadResult.ok ++ ReadResult.ok [] :: rest) sim) = chunks ∧
      (pushedChunks (c.add_chunked_audio
          (chunks.map ReadResult.ok ++ ReadResult.ok [] :: rest) sim)).length =
        (chunks.map List.length).sum / 2048 ∧
      ∀ x ∈ pushedChunks (c.add_chunked_audio
          (chunks.map ReadResult.ok ++ ReadResult.ok [] :: rest) sim),
        x.length = 2048) ∧
    (∀ x rest, x ≠ [] →
      pushedChunks (c.add_chunked_audio (ReadResult.ok x :: rest) sim) =
        x :: pushedChunks (c.add_chunked_audio rest sim)) := by
  refine ⟨⟨rfl, fun rest => rfl⟩, ?_, ?_⟩
  · intro chunks rest h
    have hne : ∀ x ∈ chunks, x ≠ [] := by
      intro x hx hemp
      have := h x hx
      simp [hemp] at this
    have hpush : pushedChunks (c.add_chunked_audio
        (chunks.map ReadResult.ok ++ ReadResult.ok [] :: rest) sim) = chunks := by
      rw [pushedChunks_ok_block c sim chunks _ hne]
      simp [SodaClient.add_chunked_audio, pushedChunks]
    refine ⟨hpush, ?_, ?_⟩
    · rw [hpush, sum_lengths_of_const 2048 chunks h,
        Nat.mul_div_cancel_left _ (by norm_num)]
    · rw [hpush]
      exact h
  · intro x rest hx
    cases sim <;>
      simp [SodaClient.add_chunked_audio, hx, pushedChunks, pushedChunks_append]

/-- Witness for C5 at a concrete one-chunk source of exactly 2048 bytes. -/
theorem C5_witness :
    pushedChunks (SodaClient.add_chunked_audio ⟨1⟩
        ([List.replicate 2048 9].map ReadResult.ok ++ ReadResult.ok [] :: [])
        false) = [List.replicate 2048 9] :=
  ((C5_chunked_feed ⟨1⟩ false).2.1 [List.replicate 2048 9] []
    (by
      intro x hx
      rw [List.mem_singleton] at hx
      subst hx
      exact List.length_replicate 2048 9)).1

/-- C6: a read error terminates the feed loop exactly like end of stream:
the chunks read before the error are pushed, nothing after it is, and the
operation returns its trace normally (the failure is not represented in the
result at all, matching the source, where the Err arm of the while-let
silently exits the loop). -/
theorem C6_read_error_silent (c : SodaClient) (sim : Bool)
    (chunks : List (List Nat)) (rest : List ReadResult)
    (h : ∀ x ∈ chunks, x ≠ []) :
    c.add_chunked_audio (ReadResult.err :: rest) sim = [] ∧
    pushedChunks (c.add_chunked_audio
        (chunks.map ReadResult.ok ++ ReadResult.err :: rest) sim) = chunks := by
  refine ⟨rfl, ?_⟩
  rw [pushedChunks_ok_block c sim chunks _ h]
  simp [SodaClient.add_chunked_audio, pushedChunks]

/-- Witness for C6 at a concrete source with one good read then an error. -/
theorem C6_witness :
    pushedChunks (SodaClient.add_chunked_audio ⟨2⟩
        ([[7]].map ReadResult.ok ++ ReadResult.err :: []) true) = [[7]] :=
  (C6_read_error_silent ⟨2⟩ true [[7]] [] (by simp)).2

/-- C8: each setter rewrites exactly its own field to the supplied value —
any value, no range validation — and leaves every other field unchanged
(the record-update right-hand sides state precisely this frame condition);
build hands the builder back unchanged, and two build calls on the same
builder issue create calls carrying the same configuration value while
taking their own callback handles and producing clients with their own
engine handles. -/
theorem C8_setters_frame_and_rebuild (b : SodaBuilder) (n : Nat) (s : String)
    (m : RecognitionMode) (flag : Bool) (cb1 cb2 : Nat)
    (e1 e2 : SerializedSodaConfigMsg → Nat) :
    b.set_channel_count n = { b with channel_count := n } ∧
    b.set_sample_rate n = { b with sample_rate := n } ∧
    b.set_max_buffer_bytes n = { b with max_buffer_bytes := n } ∧
    b.set_simulate_realtime_testonly flag =
      { b with simulate_realtime_test_only := flag } ∧
    b.set_language_pack_directory s =
      { b with language_pack_directory := s } ∧
    b.set_api_key s = { b with api_key := s } ∧
    b.set_recognition_mode m = { b with recognition_mode := m } ∧
    b.set_reset_on_final_result flag =
      { b with reset_on_final_result := flag } ∧
    b.set_include_timing_metrics flag =
      { b with include_timing_metrics := flag } ∧
    b.set_enable_lang_id flag = { b with enable_lang_id := flag } ∧
    (b.build cb1 e1).1 = b ∧
    (b.build cb1 e1).2.2 =
      [EngineCall.create b.configMsg cb1,
        EngineCall.start (e1 b.configMsg)] ∧
    (b.build cb2 e2).2.2 =
      [EngineCall.create b.configMsg cb2,
        EngineCall.start (e2 b.configMsg)] ∧
    (b.build cb1 e1).2.1 = Except.ok ⟨e1 b.configMsg⟩ ∧
    (b.build cb2 e2).2.1 = Except.ok ⟨e2 b.configMsg⟩ :=
  ⟨rfl, rfl, rfl, rfl, rfl, rfl, rfl, rfl, rfl, rfl, rfl, rfl, rfl, rfl, rfl⟩

/-- C9: on every source the paced feed pushes the identical chunk sequence
as the immediate feed; the immediate trace contains no sleep at all, and
the paced trace is exactly the immediate trace with one 20 ms sleep
inserted after each pushed chunk. -/
theorem C9_pacing_equivalence (c : SodaClient) (data : List ReadResult) :
    pushedChunks (c.add_simulated_audio data) =
      pushedChunks (c.add_audio data) ∧
    (∀ e ∈ c.add_audio data, e ≠ EngineCall.sleep20ms) ∧
    c.add_simulated_audio data =
      (c.add_audio data).flatMap (fun e => [e, EngineCall.sleep20ms]) := by
  induction data with
  | nil => exact ⟨rfl, by simp [SodaClient.add_audio, SodaClient.add_chunked_audio], rfl⟩
  | cons r rest ih =>
    cases r with
    | err =>
      exact ⟨rfl, by simp [SodaClient.add_audio, SodaClient.add_chunked_audio], rfl⟩
    | ok x =>
      by_cases hx : x = []
      · subst hx
        exact ⟨rfl, by simp [SodaClient.add_audio, SodaClient.add_chunked_audio], rfl⟩
      · obtain ⟨ih1, ih2, ih3⟩ := ih
        refine ⟨?_, ?_, ?_⟩
        · simpa [SodaClient.add_audio, SodaClient.add_simulated_audio,
            SodaClient.add_chunked_audio, hx, pushedChunks] using ih1
        · intro e he
          simp [SodaClient.add_audio, SodaClient.add_chunked_audio, hx] at he
          rcases he with he | he
          · simp [he]
          · exact ih2 e he
        · simpa [SodaClient.add_audio, SodaClient.add_simulated_audio,
            SodaClient.add_chunked_audio, hx] using ih3

/-- Witness for C9 at a concrete one-read source. -/
theorem C9_witness :
    SodaClient.add_simulated_audio ⟨3⟩ [ReadResult.ok [4]] =
      (SodaClient.add_audio ⟨3⟩ [ReadResult.ok [4]]).flatMap
        (fun e => [e, EngineCall.sleep20ms]) :=
  (C9_pacing_equivalence ⟨3⟩ [ReadResult.ok [4]]).2.2

/-- C10: a u32 builder field strictly above 2 ^ 31 - 1 (and below 2 ^ 32,
as every u32 value is) reaches the wire configuration as its value minus
2 ^ 32 — a negative number, the two's-complement reading of the same bits —
for each of channel_count, sample_rate and max_buffer_bytes; nothing is
rejected or saturated. -/
theorem C10_u32_wraparound (b : SodaBuilder) (v : Nat)
    (h1 : 2 ^ 31 - 1 < v) (h2 : v < 2 ^ 32) :
    ({ b with channel_count := v } : SodaBuilder).configMsg.channel_count =
      some ((v : Int) - 2 ^ 32) ∧
    ({ b with sample_rate := v } : SodaBuilder).configMsg.sample_rate =
      some ((v : Int) - 2 ^ 32) ∧
    ({ b with max_buffer_bytes := v } : SodaBuilder).configMsg.max_buffer_bytes =
      some ((v : Int) - 2 ^ 32) ∧
    (v : Int) - 2 ^ 32 < 0 := by
  have hmod : v % 2 ^ 32 = v := Nat.mod_eq_of_lt h2
  have key : u32_as_i32 v = (v : Int) - 2 ^ 32 := by
    unfold u32_as_i32
    rw [hmod, if_neg (by omega : ¬ v < 2 ^ 31)]
  refine ⟨?_, ?_, ?_, by omega⟩ <;> simp [SodaBuilder.configMsg, key]

/-- Witness for C10 at the smallest overflowing value, 2 ^ 31. -/
theorem C10_witness :
    ({ SodaBuilder.default with channel_count := 2 ^ 31 } :
        SodaBuilder).configMsg.channel_count =
      some (((2 ^ 31 : Nat) : Int) - 2 ^ 32) :=
  (C10_u32_wraparound SodaBuilder.default (2 ^ 31) (by norm_num) (by norm_num)).1

end Chlorate
